import Mathlib

/-!
Verification development for the LBBS abstract I/O transformation layer
(src/bbs/io.c) and the delimited-read contract (src/include/readline.h).

The C code is shallowly embedded: the global transformer registry is a
`List bbs_io_transformer` (RWLIST insertion at tail), a connection's
transformation stack (`struct bbs_io_transformations`, declared in io.h
which is not part of the sources here; its shape — a fixed array of
slots, each a transformer pointer plus an untyped private-data pointer —
is fully determined by its uses in io.c) is a `List bbs_io_transformation`
whose length is the array capacity `MAX_IO_TRANSFORMS`, and the session
registry is a `List io_session` plus the `io_session_io` counter.
C pointers that the code only tests against NULL or stores are `Option Nat`
(`none` = NULL).  Side effects that the claims count — invocations of a
transformer's `cleanup` hook and the `bbs_module_ref`/`bbs_module_unref`
calls — are modelled as a trace of `IOEvent`s returned alongside the new
state.  Locking is dropped: the embedding is the sequential semantics of
each operation under its lock.
-/

/-- The transformation kinds, from enum bbs_io_transform_type (io.h, shape
determined by uses in io.c and the spec's closed enumeration). -/
inductive bbs_io_transform_type where
  | TRANSFORM_TLS_ENCRYPTION
  | TRANSFORM_DEFLATE_COMPRESSION
  | TRANSFORM_SESSION_LOGGING
deriving DecidableEq, Repr

/-- ASCII tolower, as C's tolower behaves on the portable character set. -/
def c_tolower (c : Char) : Char :=
  if 'A' ≤ c ∧ c ≤ 'Z' then Char.ofNat (c.toNat + 32) else c

/-- Lower-cased copy of a string, for modelling strcasecmp. -/
def lowerStr (s : String) : String :=
  String.mk (s.data.map c_tolower)

/-- Boolean equality of strings up to ASCII case: !strcasecmp(a, b). -/
def strcaseeq (a b : String) : Bool :=
  decide (lowerStr a = lowerStr b)

/-- A registered I/O transformer (struct bbs_io_transformer, io.c:50-60).
The setup hook takes the two file descriptors, the direction mask and the
optional argument and returns (status, new rfd, new wfd, private data);
the optional query hook takes the slot's private data and the query code.
The cleanup hook is pure side effect, so its invocations are recorded as
trace events rather than stored as a function. -/
structure bbs_io_transformer where
  name : String
  type : bbs_io_transform_type
  dir : Nat
  setup : Int → Int → Nat → Option Nat → Int × Int × Int × Option Nat
  query : Option (Option Nat → Int → Int)
  module : Nat

/-- One slot of a transformation stack (struct bbs_io_transformation):
a transformer pointer and the transformer's private data pointer. -/
structure bbs_io_transformation where
  transformer : Option bbs_io_transformer
  data : Option Nat

/-- Observable side effects of the stack operations: a cleanup-hook
invocation (recording the transformer's name and the private data it was
handed) and module reference count changes. -/
inductive IOEvent where
  | cleanup (name : String) (data : Option Nat)
  | modRef (m : Nat)
  | modUnref (m : Nat)

/-- Registry registration, __bbs_io_transformer_register (io.c:136-167,
leading underscores dropped for Lean).  Fails with -1 when a registered
name matches case-insensitively (strcasecmp); otherwise the new entry is
appended at the tail (RWLIST_INSERT_TAIL).  Allocation failure is not
modelled.  The C parameter list also carries the cleanup hook, which the
embedding represents only through trace events. -/
def bbs_io_transformer_register (reg : List bbs_io_transformer) (name : String)
    (setupf : Int → Int → Nat → Option Nat → Int × Int × Int × Option Nat)
    (queryf : Option (Option Nat → Int → Int))
    (ty : bbs_io_transform_type) (dir : Nat) (module : Nat) :
    Int × List bbs_io_transformer :=
  if reg.any (fun t => strcaseeq name t.name) then
    (-1, reg)
  else
    (0, reg ++ [{ name := name, type := ty, dir := dir,
                  setup := setupf, query := queryf, module := module }])

/-- Registry removal, bbs_io_transformer_unregister (io.c:169-185):
removes the first case-insensitive match, returns 0 if found else -1. -/
def bbs_io_transformer_unregister (reg : List bbs_io_transformer) (name : String) :
    Int × List bbs_io_transformer :=
  match reg with
  | [] => (-1, [])
  | t :: rest =>
    if strcaseeq name t.name then
      (0, rest)
    else
      let r := bbs_io_transformer_unregister rest name
      (r.1, t :: r.2)

/-- Name lookup, bbs_io_named_transformer_available (io.c:187-204):
note the comparison is strcmp, i.e. case-SENSITIVE exact equality,
returning 1 when found and 0 otherwise. -/
def bbs_io_named_transformer_available (reg : List bbs_io_transformer) (name : String) : Int :=
  if reg.any (fun t => decide (name = t.name)) then 1 else 0

/-- Free-slot check, io_transform_slots_free (io.c:241-252): a slot is
free for capacity purposes iff its TRANSFORMER pointer is NULL. -/
def io_transform_slots_free : List bbs_io_transformation → Bool
  | [] => false
  | s :: rest => if s.transformer.isNone then true else io_transform_slots_free rest

/-- Slot storage, io_transform_store (io.c:254-269): put (t, data) into
the first slot whose transformer pointer is NULL; -1 if none. -/
def io_transform_store : List bbs_io_transformation → bbs_io_transformer → Option Nat →
    Int × List bbs_io_transformation
  | [], _, _ => (-1, [])
  | s :: rest, t, d =>
    if s.transformer.isNone then
      (0, { transformer := some t, data := d } :: rest)
    else
      let r := io_transform_store rest t d
      (r.1, s :: r.2)

/-- Activity scan, bbs_io_transform_active (io.c:358-375): a slot counts
as active iff its DATA pointer is non-NULL and its transformer has the
requested type. -/
def bbs_io_transform_active : List bbs_io_transformation → bbs_io_transform_type → Bool
  | [], _ => false
  | s :: rest, ty =>
    match s.data, s.transformer with
    | some _, some t =>
      if t.type = ty then true else bbs_io_transform_active rest ty
    | _, _ => bbs_io_transform_active rest ty

/-- Query dispatch, bbs_io_transform_query (io.c:377-399): find the first
slot with non-NULL data whose transformer has the requested type; call
its query hook if present, else report 1 (active but unqueryable);
-1 when no such active slot exists. -/
def bbs_io_transform_query : List bbs_io_transformation → bbs_io_transform_type → Int → Int
  | [], _, _ => -1
  | s :: rest, ty, q =>
    match s.data, s.transformer with
    | some d, some t =>
      if t.type = ty then
        match t.query with
        | some f => f (some d) q
        | none => 1
      else bbs_io_transform_query rest ty q
    | _, _ => bbs_io_transform_query rest ty q

/-- Possibility check, __bbs_io_transform_possible (io.c:271-298, leading
underscores dropped; the warn parameter only controls logging and is
omitted): a duplicate kind is rejected, and TLS encryption is rejected
once deflate compression is already active. -/
def bbs_io_transform_possible (trans : List bbs_io_transformation)
    (ty : bbs_io_transform_type) : Bool :=
  if bbs_io_transform_active trans ty then false
  else if ty = .TRANSFORM_TLS_ENCRYPTION then
    if bbs_io_transform_active trans .TRANSFORM_DEFLATE_COMPRESSION then false else true
  else true

/-- First transformer matching the requested type among those whose
direction mask covers the requested direction: the RWLIST_TRAVERSE loop
of bbs_io_transform_setup (io.c:321-328). -/
def find_transformer (reg : List bbs_io_transformer) (ty : bbs_io_transform_type)
    (direction : Nat) : Option bbs_io_transformer :=
  reg.find? (fun t => decide (t.dir &&& direction ≠ 0) && decide (t.type = ty))

/-- The tail of bbs_io_transform_setup after the setup hook has run
(io.c:341-352): on hook success the private data is stored; if storage
fails the hook's cleanup is invoked on a stack-local transformation
record and the result becomes 1; on storage success the owning module is
referenced; on hook failure the hook's status is returned unchanged. -/
def setup_post_hook (trans : List bbs_io_transformation) (t : bbs_io_transformer)
    (res : Int) (d : Option Nat) : Int × List bbs_io_transformation × List IOEvent :=
  if res = 0 then
    let st := io_transform_store trans t d
    if st.1 ≠ 0 then
      (1, st.2, [IOEvent.cleanup t.name d])
    else
      (0, st.2, [IOEvent.modRef t.module])
  else
    (res, trans, [])

/-- Composite setup, bbs_io_transform_setup (io.c:305-356): possibility
check, capacity check, transformer lookup, setup hook, then storage and
reference counting.  Returns (result, new stack, trace, new rfd, new wfd). -/
def bbs_io_transform_setup (reg : List bbs_io_transformer)
    (trans : List bbs_io_transformation) (ty : bbs_io_transform_type)
    (direction : Nat) (rfd wfd : Int) (arg : Option Nat) :
    Int × List bbs_io_transformation × List IOEvent × Int × Int :=
  if bbs_io_transform_possible trans ty = false then (-1, trans, [], rfd, wfd)
  else if io_transform_slots_free trans = false then (-1, trans, [], rfd, wfd)
  else
    match find_transformer reg ty direction with
    | none => (-1, trans, [], rfd, wfd)
    | some t =>
      let r := t.setup rfd wfd direction arg
      let ph := setup_post_hook trans t r.1 r.2.2.2
      (ph.1, ph.2.1, ph.2.2, r.2.1, r.2.2.1)

/-- Per-slot teardown, teardown_transformation (io.c:401-408): invoke the
cleanup hook, clear the slot, unreference the owning module.  The C code
dereferences the slot's transformer pointer unconditionally; it is only
ever called on slots with non-NULL data, which on reachable stacks have a
non-NULL transformer, so the NULL-transformer branch (which the C cannot
execute without UB) leaves the slot as is. -/
def teardown_transformation (tran : bbs_io_transformation) :
    bbs_io_transformation × List IOEvent :=
  match tran.transformer with
  | some t =>
    ({ transformer := none, data := none },
     [IOEvent.cleanup t.name tran.data, IOEvent.modUnref t.module])
  | none => (tran, [])

/-- Stack teardown, bbs_io_teardown_all_transformers (io.c:410-422):
tear down every slot whose DATA pointer is non-NULL. -/
def bbs_io_teardown_all_transformers :
    List bbs_io_transformation → List bbs_io_transformation × List IOEvent
  | [] => ([], [])
  | s :: rest =>
    if s.data.isSome then
      let td := teardown_transformation s
      let r := bbs_io_teardown_all_transformers rest
      (td.1 :: r.1, td.2 ++ r.2)
    else
      let r := bbs_io_teardown_all_transformers rest
      (s :: r.1, r.2)

/-- Session types, enum bbs_io_session_type (uses in io.c:74-81). -/
inductive bbs_io_session_type where
  | TRANSFORM_SESSION_NODE
  | TRANSFORM_SESSION_TCPCLIENT
deriving DecidableEq, Repr

/-- One session registry entry, struct io_session (io.c:65-72).  The stack
pointer and the owner pointer are modelled as addresses; the start
timestamp is wall-clock state the claims do not touch and is omitted. -/
structure io_session where
  s : Nat
  id : Nat
  type : bbs_io_session_type
  owner : Nat

/-- Modulus of the C type unsigned int (32 bits): io_session_io wraps here. -/
def UINT_MOD : Nat := 2 ^ 32

/-- The global session-registry state: the sessions list (RWLIST, tail
insertion) and the io_session_io counter (io.c:83-84). -/
structure sessions_state where
  sessions : List io_session
  io_session_io : Nat

/-- Session registration, bbs_io_session_register (io.c:86-111): fails
with -1 if some session already references the same stack object;
otherwise pre-increments the unsigned counter (wrapping at 2^32), assigns
that value as the new session's id and appends it at the tail.
Allocation failure is not modelled. -/
def bbs_io_session_register (st : sessions_state) (s : Nat)
    (ty : bbs_io_session_type) (owner : Nat) : Int × sessions_state :=
  if st.sessions.any (fun i => decide (i.s = s)) then
    (-1, st)
  else
    let newid := (st.io_session_io + 1) % UINT_MOD
    (0, { sessions := st.sessions ++ [{ s := s, id := newid, type := ty, owner := owner }],
          io_session_io := newid })

/-- The removal scan of bbs_io_session_unregister: drop the first entry
referencing the given stack, reporting whether one was found. -/
def remove_first_session : List io_session → Nat → Bool × List io_session
  | [], _ => (false, [])
  | i :: rest, s =>
    if i.s = s then
      (true, rest)
    else
      let r := remove_first_session rest s
      (r.1, i :: r.2)

/-- Session unregistration, bbs_io_session_unregister (io.c:113-134):
0 when an entry referencing the stack was removed, -1 (list unchanged)
when none references it. -/
def bbs_io_session_unregister (st : sessions_state) (s : Nat) : Int × sessions_state :=
  let r := remove_first_session st.sessions s
  (if r.1 then 0 else -1, { sessions := r.2, io_session_io := st.io_session_io })

/-- A session-registry operation: a registration attempt or an
unregistration attempt for a given stack address. -/
inductive sess_op where
  | sreg (s : Nat) (ty : bbs_io_session_type) (owner : Nat)
  | sunreg (s : Nat)

/-- Run a sequence of session-registry operations, collecting in order the
identifier issued by every SUCCESSFUL registration. -/
def apply_sess_ops : List sess_op → sessions_state → sessions_state × List Nat
  | [], st => (st, [])
  | .sreg s ty ow :: rest, st =>
    let r := bbs_io_session_register st s ty ow
    let k := apply_sess_ops rest r.2
    (k.1, if r.1 = 0 then r.2.io_session_io :: k.2 else k.2)
  | .sunreg s :: rest, st =>
    let r := bbs_io_session_unregister st s
    let k := apply_sess_ops rest r.2
    (k.1, k.2)

/-- n registration attempts for pairwise distinct, fresh stack addresses
base+1, base+2, ..., base+n. -/
def fresh_reg_ops : Nat → Nat → List sess_op
  | _, 0 => []
  | base, n + 1 =>
    sess_op.sreg (base + 1) .TRANSFORM_SESSION_NODE 0 :: fresh_reg_ops (base + 1) n

/-- The empty session registry at process start (io.c:83-84). -/
def sessions_init : sessions_state := { sessions := [], io_session_io := 0 }

/-- A registry operation: a registration attempt (carrying everything
__bbs_io_transformer_register takes, the cleanup hook being trace-only)
or an unregistration attempt. -/
inductive reg_op where
  | doReg (name : String) (ty : bbs_io_transform_type) (dir : Nat)
      (setupf : Int → Int → Nat → Option Nat → Int × Int × Int × Option Nat)
      (queryf : Option (Option Nat → Int → Int)) (module : Nat)
  | doUnreg (name : String)

/-- Run a sequence of transformer-registry operations. -/
def apply_reg_ops : List reg_op → List bbs_io_transformer → List bbs_io_transformer
  | [], reg => reg
  | .doReg n ty d sf qf m :: rest, reg =>
    apply_reg_ops rest (bbs_io_transformer_register reg n sf qf ty d m).2
  | .doUnreg n :: rest, reg =>
    apply_reg_ops rest (bbs_io_transformer_unregister reg n).2

/-- Drop the first name that matches case-insensitively. -/
def remove_first_ci : List String → String → List String
  | [], _ => []
  | m :: rest, n => if strcaseeq n m then rest else m :: remove_first_ci rest n

/-- Modelled from the spec: the registered name set as the spec describes
it ("the registry is a mapping from name to Transformer, ... names
unique", register dedups case-insensitively, unregister removes the
case-insensitive match).  Used to compare the registry implementation
against the spec's description of the registered set. -/
def spec_registered_names : List reg_op → List String → List String
  | [], ns => ns
  | .doReg n _ _ _ _ _ :: rest, ns =>
    spec_registered_names rest
      (if ns.any (fun m => strcaseeq n m) then ns else ns ++ [n])
  | .doUnreg n :: rest, ns =>
    spec_registered_names rest (remove_first_ci ns n)

/-- The low-level outcomes a single bbs_readline invocation can end on:
poll expired with no data, the source returned end-of-stream, a hard
poll/read failure, or a complete record of n bytes. -/
inductive read_outcome where
  | timedOut
  | closed
  | ioError
  | record (n : Nat)

/-- Modelled from the spec: the return-value contract of bbs_readline as
documented in src/include/readline.h:45-57 ("-2 on failure, -1 if read
or poll returns 0, and number of bytes read in first input chunk
otherwise"); the implementation file readline.c is not among the
sources, so this maps each documented outcome to the documented return
value: a poll that returns 0 is the timeout case and a read that returns
0 is the end-of-stream case, both yielding -1; hard failures yield -2. -/
def bbs_readline_retval : read_outcome → Int
  | .timedOut => -1
  | .closed => -1
  | .ioError => -2
  | .record n => (n : Int)

/-- Recognizer for cleanup-hook invocation events. -/
def is_cleanup_event : IOEvent → Bool
  | .cleanup _ _ => true
  | _ => false

/-- Recognizer for module-reference events. -/
def is_modref_event : IOEvent → Bool
  | .modRef _ => true
  | _ => false

/-- Recognizer for module-unreference events. -/
def is_modunref_event : IOEvent → Bool
  | .modUnref _ => true
  | _ => false

/-- Number of slots that io_transform_slots_free/io_transform_store treat
as free: transformer pointer NULL. -/
def free_slot_count (trans : List bbs_io_transformation) : Nat :=
  trans.countP (fun s => s.transformer.isNone)

/-- Number of slots bbs_io_teardown_all_transformers considers occupied:
data pointer non-NULL. -/
def active_slot_count (trans : List bbs_io_transformation) : Nat :=
  trans.countP (fun s => s.data.isSome)

/-- Whether a slot counts as an active transformation of the given kind
(the condition scanned by bbs_io_transform_active). -/
def slot_matches (s : bbs_io_transformation) (ty : bbs_io_transform_type) : Bool :=
  match s.data, s.transformer with
  | some _, some t => decide (t.type = ty)
  | _, _ => false

/-- Number of active slots of one kind on a stack. -/
def kind_count (trans : List bbs_io_transformation) (ty : bbs_io_transform_type) : Nat :=
  trans.countP (fun s => slot_matches s ty)

/-- A stack is well formed when every slot with private data also has its
transformer pointer set — true of every stack the code can build, since
io_transform_store sets both fields together and teardown clears both. -/
def stack_wf (trans : List bbs_io_transformation) : Prop :=
  ∀ s ∈ trans, s.data.isSome = true → s.transformer.isSome = true

instance (trans : List bbs_io_transformation) : Decidable (stack_wf trans) := by
  unfold stack_wf; infer_instance

/-- A setup hook that succeeds and produces private data. -/
def demo_setup_ok : Int → Int → Nat → Option Nat → Int × Int × Int × Option Nat :=
  fun a b _ _ => (0, a, b, some 5)

/-- A setup hook that succeeds but leaves its private data NULL. -/
def demo_setup_nulldata : Int → Int → Nat → Option Nat → Int × Int × Int × Option Nat :=
  fun a b _ _ => (0, a, b, none)

/-- A setup hook that declines. -/
def demo_setup_fail : Int → Int → Nat → Option Nat → Int × Int × Int × Option Nat :=
  fun a b _ _ => (-1, a, b, none)

/-- A concrete TLS transformer for concrete evaluations. -/
def tls_demo : bbs_io_transformer :=
  { name := "tls", type := .TRANSFORM_TLS_ENCRYPTION, dir := 3,
    setup := demo_setup_ok, query := none, module := 1 }

/-- A concrete deflate transformer for concrete evaluations. -/
def deflate_demo : bbs_io_transformer :=
  { name := "deflate", type := .TRANSFORM_DEFLATE_COMPRESSION, dir := 3,
    setup := demo_setup_ok, query := none, module := 2 }

/-- A concrete TLS transformer whose setup declines. -/
def tls_fail_demo : bbs_io_transformer :=
  { name := "tlsfail", type := .TRANSFORM_TLS_ENCRYPTION, dir := 3,
    setup := demo_setup_fail, query := none, module := 3 }

/-- A concrete logging transformer whose setup leaves NULL private data. -/
def log_nulldata_demo : bbs_io_transformer :=
  { name := "lognull", type := .TRANSFORM_SESSION_LOGGING, dir := 3,
    setup := demo_setup_nulldata, query := none, module := 4 }

/-- An empty transformation slot. -/
def empty_slot : bbs_io_transformation := { transformer := none, data := none }

/-- A two-slot stack whose first slot holds an active deflate compression. -/
def demo_comp_stack : List bbs_io_transformation :=
  [{ transformer := some deflate_demo, data := some 1 }, empty_slot]

/-! Registry lemmas. -/

theorem any_name_eq_decide_mem (ns : List String) (q : String) :
    (ns.any fun m => decide (q = m)) = decide (q ∈ ns) := by
  induction ns with
  | nil => simp
  | cons m rest ih => simp [List.any_cons, ih, List.mem_cons]

theorem available_eq_if_mem (reg : List bbs_io_transformer) (q : String) :
    bbs_io_named_transformer_available reg q =
      (if q ∈ reg.map (fun t => t.name) then 1 else 0) := by
  unfold bbs_io_named_transformer_available
  have h : (reg.any fun t => decide (q = t.name)) =
      ((reg.map fun t => t.name).any fun m => decide (q = m)) := by
    induction reg with
    | nil => rfl
    | cons t rest ih => simp [List.any_cons, ih]
  rw [h, any_name_eq_decide_mem]
  by_cases hm : q ∈ reg.map fun t => t.name <;> simp [hm]

theorem unregister_map_name (reg : List bbs_io_transformer) (n : String) :
    (bbs_io_transformer_unregister reg n).2.map (fun t => t.name) =
      remove_first_ci (reg.map fun t => t.name) n := by
  induction reg with
  | nil => rfl
  | cons t rest ih =>
    unfold bbs_io_transformer_unregister remove_first_ci
    by_cases h : strcaseeq n t.name = true
    · simp [h]
    · simp only [Bool.not_eq_true] at h
      simp [h, ih]

theorem apply_reg_ops_map_name (ops : List reg_op) : ∀ (reg : List bbs_io_transformer),
    (apply_reg_ops ops reg).map (fun t => t.name) =
      spec_registered_names ops (reg.map fun t => t.name) := by
  induction ops with
  | nil => intro reg; rfl
  | cons op rest ih =>
    intro reg
    cases op with
    | doReg n ty d sf qf m =>
      unfold apply_reg_ops spec_registered_names bbs_io_transformer_register
      have h : (reg.any fun t => strcaseeq n t.name) =
          ((reg.map fun t => t.name).any fun s => strcaseeq n s) := by
        induction reg with
        | nil => rfl
        | cons t rest ihr => simp [List.any_cons, ihr]
      by_cases hc : (reg.any fun t => strcaseeq n t.name) = true
      · rw [hc] at h; simp [hc, ← h, ih]
      · simp only [Bool.not_eq_true] at hc
        rw [hc] at h; simp [hc, ← h, ih]
    | doUnreg n =>
      unfold apply_reg_ops spec_registered_names
      rw [ih, unregister_map_name]

/-! Session-registry lemmas. -/

theorem remove_first_session_not_found (l : List io_session) (s : Nat)
    (h : (l.any fun i => decide (i.s = s)) = false) :
    remove_first_session l s = (false, l) := by
  induction l with
  | nil => rfl
  | cons i rest ih =>
    simp only [List.any_cons, Bool.or_eq_false_iff, decide_eq_false_iff_not] at h
    unfold remove_first_session
    simp [h.1, ih h.2]

theorem remove_first_session_append (l : List io_session) (i0 : io_session) (s : Nat)
    (h : (l.any fun i => decide (i.s = s)) = false) (h0 : i0.s = s) :
    remove_first_session (l ++ [i0]) s = (true, l) := by
  induction l with
  | nil => simp [remove_first_session, h0]
  | cons i rest ih =>
    simp only [List.any_cons, Bool.or_eq_false_iff, decide_eq_false_iff_not] at h
    unfold remove_first_session
    simp [h.1, ih h.2]

/-- C3 counterexample: registering the single name TLS succeeds, and the
query tls differs from it only in letter case, yet
bbs_io_named_transformer_available reports 0 for it — the lookup is
case-sensitive (strcmp, io.c:193), so the claim's case-insensitive
reading of available is false on this input. -/
theorem c3_available_counterexample :
    (bbs_io_transformer_register [] "TLS" demo_setup_ok none
      .TRANSFORM_TLS_ENCRYPTION 3 1).1 = 0 ∧
    strcaseeq "tls" "TLS" = true ∧
    bbs_io_named_transformer_available
      (bbs_io_transformer_register [] "TLS" demo_setup_ok none
        .TRANSFORM_TLS_ENCRYPTION 3 1).2 "tls" = 0 :=
  ⟨by decide, by decide, by decide⟩

/-- C3 (amended): after any sequence of register/unregister calls starting
from the empty registry, available(name) returns 1 exactly when a
transformer whose name equals the query EXACTLY (case-sensitively) is
currently registered, where the current registered-name set is the
spec's: registration dedups case-insensitively and appends, and
unregistration removes the first case-insensitive match. -/
theorem c3_available_reflects_registry :
    ∀ (ops : List reg_op) (q : String),
      bbs_io_named_transformer_available (apply_reg_ops ops []) q =
        (if q ∈ spec_registered_names ops [] then 1 else 0) := by
  intro ops q
  rw [available_eq_if_mem]
  have h := apply_reg_ops_map_name ops []
  simp only [List.map_nil] at h
  rw [h]

/-- C4: registering a name that collides case-insensitively with a
registered one fails with -1 and leaves the registry unchanged;
registering a fresh name succeeds, appends exactly the given entry, and
the name is subsequently available. -/
theorem c4_register_duplicate_rules :
    ∀ (reg : List bbs_io_transformer) (name : String)
      (sf : Int → Int → Nat → Option Nat → Int × Int × Int × Option Nat)
      (qf : Option (Option Nat → Int → Int)) (ty : bbs_io_transform_type) (d m : Nat),
      ((reg.any fun t => strcaseeq name t.name) = true →
        bbs_io_transformer_register reg name sf qf ty d m = (-1, reg)) ∧
      ((reg.any fun t => strcaseeq name t.name) = false →
        bbs_io_transformer_register reg name sf qf ty d m =
          (0, reg ++ [{ name := name, type := ty, dir := d,
                        setup := sf, query := qf, module := m }]) ∧
        bbs_io_named_transformer_available
          (bbs_io_transformer_register reg name sf qf ty d m).2 name = 1) := by
  intro reg name sf qf ty d m
  constructor
  · intro h
    simp [bbs_io_transformer_register, h]
  · intro h
    constructor
    · simp [bbs_io_transformer_register, h]
    · simp [bbs_io_transformer_register, h, available_eq_if_mem]

/-- C4 witness: concrete duplicate (case-differing) and fresh-name
registrations. -/
theorem c4_register_duplicate_rules_witness :
    bbs_io_transformer_register [tls_demo] "TLS" demo_setup_ok none
      .TRANSFORM_TLS_ENCRYPTION 3 9 = (-1, [tls_demo]) ∧
    bbs_io_named_transformer_available
      (bbs_io_transformer_register [tls_demo] "zlib" demo_setup_ok none
        .TRANSFORM_DEFLATE_COMPRESSION 3 9).2 "zlib" = 1 := by
  constructor
  · exact (c4_register_duplicate_rules [tls_demo] "TLS" demo_setup_ok none
      .TRANSFORM_TLS_ENCRYPTION 3 9).1 (by decide)
  · exact ((c4_register_duplicate_rules [tls_demo] "zlib" demo_setup_ok none
      .TRANSFORM_DEFLATE_COMPRESSION 3 9).2 (by decide)).2

/-- C7: registering a stack already referenced by a session fails with -1
and leaves the registry unchanged; unregistering a stack no session
references fails with -1 and leaves it unchanged; and when the stack is
not yet registered, register followed by unregister of it both return 0. -/
theorem c7_session_registry_errors :
    ∀ (st : sessions_state) (s : Nat) (ty : bbs_io_session_type) (ow : Nat),
      ((st.sessions.any fun i => decide (i.s = s)) = true →
        bbs_io_session_register st s ty ow = (-1, st)) ∧
      ((st.sessions.any fun i => decide (i.s = s)) = false →
        bbs_io_session_unregister st s = (-1, st) ∧
        (bbs_io_session_register st s ty ow).1 = 0 ∧
        (bbs_io_session_unregister (bbs_io_session_register st s ty ow).2 s).1 = 0) := by
  intro st s ty ow
  constructor
  · intro h
    simp [bbs_io_session_register, h]
  · intro h
    refine ⟨?_, ?_, ?_⟩
    · unfold bbs_io_session_unregister
      rw [remove_first_session_not_found st.sessions s h]
      simp
    · simp [bbs_io_session_register, h]
    · simp only [bbs_io_session_register, h, Bool.false_eq_true, if_false]
      unfold bbs_io_session_unregister
      rw [remove_first_session_append st.sessions _ s h rfl]
      simp

/-- C7 witness: on a concrete one-session registry, duplicate register
fails, unregister of an unknown stack fails, and a fresh
register/unregister pair succeeds. -/
theorem c7_session_registry_errors_witness :
    bbs_io_session_register
      { sessions := [{ s := 7, id := 1, type := .TRANSFORM_SESSION_NODE, owner := 0 }],
        io_session_io := 1 } 7 .TRANSFORM_SESSION_NODE 0 =
      (-1, { sessions := [{ s := 7, id := 1, type := .TRANSFORM_SESSION_NODE, owner := 0 }],
             io_session_io := 1 }) ∧
    bbs_io_session_unregister
      { sessions := [{ s := 7, id := 1, type := .TRANSFORM_SESSION_NODE, owner := 0 }],
        io_session_io := 1 } 9 =
      (-1, { sessions := [{ s := 7, id := 1, type := .TRANSFORM_SESSION_NODE, owner := 0 }],
             io_session_io := 1 }) ∧
    (bbs_io_session_register
      { sessions := [{ s := 7, id := 1, type := .TRANSFORM_SESSION_NODE, owner := 0 }],
        io_session_io := 1 } 9 .TRANSFORM_SESSION_NODE 0).1 = 0 ∧
    (bbs_io_session_unregister
      (bbs_io_session_register
        { sessions := [{ s := 7, id := 1, type := .TRANSFORM_SESSION_NODE, owner := 0 }],
          io_session_io := 1 } 9 .TRANSFORM_SESSION_NODE 0).2 9).1 = 0 := by
  refine ⟨?_, ?_, ?_, ?_⟩
  · exact (c7_session_registry_errors _ 7 .TRANSFORM_SESSION_NODE 0).1 (by decide)
  · exact ((c7_session_registry_errors _ 9 .TRANSFORM_SESSION_NODE 0).2 (by decide)).1
  · exact ((c7_session_registry_errors _ 9 .TRANSFORM_SESSION_NODE 0).2 (by decide)).2.1
  · exact ((c7_session_registry_errors _ 9 .TRANSFORM_SESSION_NODE 0).2 (by decide)).2.2

/-- C9 counterexample: per the documented return contract of
bbs_readline, a read that obtains zero bytes (end-of-stream) and a poll
that expires with no data both return -1, so the Closed outcome is NOT
distinguishable from the TimedOut outcome by the return value alone. -/
theorem c9_retval_counterexample :
    bbs_readline_retval .closed = -1 ∧ bbs_readline_retval .timedOut = -1 :=
  ⟨rfl, rfl⟩

/-- C9 (amended): end-of-stream and timeout both report -1 and are
therefore conflated with each other, while transport errors report -2 —
so the caller can distinguish the recoverable class (timeout or closed,
-1) from hard failure (-2) and from any successful record (≥ 0), but not
Closed from TimedOut. -/
theorem c9_retval_classes :
    bbs_readline_retval .closed = bbs_readline_retval .timedOut ∧
    bbs_readline_retval .ioError = -2 ∧
    bbs_readline_retval .closed ≠ bbs_readline_retval .ioError ∧
    (∀ n, 0 ≤ bbs_readline_retval (.record n)) ∧
    (∀ n, bbs_readline_retval (.record n) ≠ bbs_readline_retval .closed ∧
          bbs_readline_retval (.record n) ≠ bbs_readline_retval .ioError) := by
  refine ⟨rfl, rfl, by decide, ?_, ?_⟩
  · intro n
    exact Int.natCast_nonneg n
  · intro n
    simp only [bbs_readline_retval]
    constructor <;> omega

/-- C9 (amended) witness: a concrete seven-byte record's return value is
distinct from the closed and error return values. -/
theorem c9_retval_classes_witness :
    0 ≤ bbs_readline_retval (.record 7) ∧
    bbs_readline_retval (.record 7) ≠ bbs_readline_retval .closed ∧
    bbs_readline_retval (.record 7) ≠ bbs_readline_retval .ioError :=
  ⟨c9_retval_classes.2.2.2.1 7, (c9_retval_classes.2.2.2.2 7).1,
   (c9_retval_classes.2.2.2.2 7).2⟩

/-! Transformation-stack lemmas. -/

theorem slots_free_store (trans : List bbs_io_transformation)
    (t : bbs_io_transformer) (d : Option Nat)
    (h : io_transform_slots_free trans = true) :
    (io_transform_store trans t d).1 = 0 := by
  induction trans with
  | nil => simp [io_transform_slots_free] at h
  | cons s rest ih =>
    unfold io_transform_slots_free at h
    unfold io_transform_store
    by_cases hf : s.transformer.isNone = true
    · simp [hf]
    · simp only [Bool.not_eq_true] at hf
      simp only [hf, Bool.false_eq_true, if_false] at h
      simp [hf, ih h]

theorem store_fail_id (trans : List bbs_io_transformation)
    (t : bbs_io_transformer) (d : Option Nat)
    (h : (io_transform_store trans t d).1 ≠ 0) :
    (io_transform_store trans t d).2 = trans := by
  induction trans with
  | nil => rfl
  | cons s rest ih =>
    unfold io_transform_store at h ⊢
    by_cases hf : s.transformer.isNone = true
    · simp [hf] at h
    · simp only [Bool.not_eq_true] at hf
      simp only [hf, Bool.false_eq_true, if_false] at h ⊢
      simp only [ne_eq] at h ih
      rw [ih h]

theorem store_free_count (trans : List bbs_io_transformation)
    (t : bbs_io_transformer) (d : Option Nat)
    (h : (io_transform_store trans t d).1 = 0) :
    free_slot_count (io_transform_store trans t d).2 + 1 = free_slot_count trans := by
  induction trans with
  | nil => simp [io_transform_store] at h
  | cons s rest ih =>
    unfold io_transform_store at h ⊢
    by_cases hf : s.transformer.isNone = true
    · simp only [hf, if_true]
      simp only [free_slot_count, List.countP_cons, hf]
      simp
    · simp only [Bool.not_eq_true] at hf
      simp only [hf, Bool.false_eq_true, if_false] at h ⊢
      simp only [free_slot_count, List.countP_cons, hf]
      have := ih h
      simp only [free_slot_count] at this
      omega

theorem store_none_active (trans : List bbs_io_transformation)
    (t : bbs_io_transformer)
    (h : (io_transform_store trans t none).1 = 0) (ty : bbs_io_transform_type) :
    bbs_io_transform_active (io_transform_store trans t none).2 ty =
      bbs_io_transform_active trans ty := by
  induction trans with
  | nil => rfl
  | cons s rest ih =>
    unfold io_transform_store at h ⊢
    by_cases hf : s.transformer.isNone = true
    · simp only [hf, if_true]
      have hs : s.transformer = none := Option.isNone_iff_eq_none.mp hf
      unfold bbs_io_transform_active
      cases hd : s.data with
      | none => simp [hs]
      | some d0 => simp [hs]
    · simp only [Bool.not_eq_true] at hf
      simp only [hf, Bool.false_eq_true, if_false] at h ⊢
      unfold bbs_io_transform_active
      cases hd : s.data with
      | none =>
        cases hs : s.transformer with
        | none => exact ih h
        | some t0 => exact ih h
      | some d0 =>
        cases hs : s.transformer with
        | none => exact ih h
        | some t0 =>
          by_cases hty : t0.type = ty
          · simp [hty]
          · simp [hty, ih h]

theorem store_none_teardown_events (trans : List bbs_io_transformation)
    (t : bbs_io_transformer)
    (h : (io_transform_store trans t none).1 = 0) :
    (bbs_io_teardown_all_transformers (io_transform_store trans t none).2).2 =
      (bbs_io_teardown_all_transformers trans).2 := by
  induction trans with
  | nil => rfl
  | cons s rest ih =>
    unfold io_transform_store at h ⊢
    by_cases hf : s.transformer.isNone = true
    · simp only [hf, if_true]
      have hs : s.transformer = none := Option.isNone_iff_eq_none.mp hf
      unfold bbs_io_teardown_all_transformers
      cases hd : s.data with
      | none => simp
      | some d0 =>
        simp only [Option.isSome_none, Bool.false_eq_true, if_false,
          Option.isSome_some, if_true]
        unfold teardown_transformation
        simp [hs]
    · simp only [Bool.not_eq_true] at hf
      simp only [hf, Bool.false_eq_true, if_false] at h ⊢
      unfold bbs_io_teardown_all_transformers
      by_cases hd : s.data.isSome = true
      · simp [hd, ih h]
      · simp only [Bool.not_eq_true] at hd
        simp [hd, ih h]

theorem store_kind_count (trans : List bbs_io_transformation)
    (t : bbs_io_transformer) (d : Option Nat)
    (h : (io_transform_store trans t d).1 = 0) (ty : bbs_io_transform_type) :
    kind_count (io_transform_store trans t d).2 ty =
      kind_count trans ty +
        (if slot_matches { transformer := some t, data := d } ty then 1 else 0) := by
  induction trans with
  | nil => simp [io_transform_store] at h
  | cons s rest ih =>
    unfold io_transform_store at h ⊢
    by_cases hf : s.transformer.isNone = true
    · simp only [hf, if_true]
      have hs : s.transformer = none := Option.isNone_iff_eq_none.mp hf
      simp only [kind_count, List.countP_cons]
      have hm : slot_matches s ty = false := by
        unfold slot_matches
        rw [hs]
        cases s.data <;> rfl
      rw [hm]
      simp
    · simp only [Bool.not_eq_true] at hf
      simp only [hf, Bool.false_eq_true, if_false] at h ⊢
      simp only [kind_count, List.countP_cons]
      have := ih h
      simp only [kind_count] at this
      omega

theorem active_eq_any (trans : List bbs_io_transformation) (ty : bbs_io_transform_type) :
    bbs_io_transform_active trans ty = trans.any (fun s => slot_matches s ty) := by
  induction trans with
  | nil => rfl
  | cons s rest ih =>
    obtain ⟨st, sd⟩ := s
    cases sd with
    | none => cases st <;> simp [bbs_io_transform_active, slot_matches, List.any_cons, ih]
    | some d0 =>
      cases st with
      | none => simp [bbs_io_transform_active, slot_matches, List.any_cons, ih]
      | some t0 =>
        by_cases hty : t0.type = ty <;>
          simp [bbs_io_transform_active, slot_matches, List.any_cons, ih, hty]

theorem active_false_kind_count (trans : List bbs_io_transformation)
    (ty : bbs_io_transform_type)
    (h : bbs_io_transform_active trans ty = false) : kind_count trans ty = 0 := by
  rw [active_eq_any] at h
  unfold kind_count
  rw [List.countP_eq_zero]
  intro s hs
  rw [List.any_eq_false] at h
  simpa using h s hs

theorem active_false_query (trans : List bbs_io_transformation)
    (ty : bbs_io_transform_type)
    (h : bbs_io_transform_active trans ty = false) (q : Int) :
    bbs_io_transform_query trans ty q = -1 := by
  induction trans with
  | nil => rfl
  | cons s rest ih =>
    unfold bbs_io_transform_active at h
    unfold bbs_io_transform_query
    cases hd : s.data with
    | none =>
      rw [hd] at h
      cases hs : s.transformer with
      | none => rw [hs] at h; exact ih h
      | some t0 => rw [hs] at h; exact ih h
    | some d0 =>
      rw [hd] at h
      cases hs : s.transformer with
      | none => rw [hs] at h; exact ih h
      | some t0 =>
        rw [hs] at h
        by_cases hty : t0.type = ty
        · simp [hty] at h
        · simp only [hty, if_false] at h ⊢
          exact ih h

theorem find_transformer_spec (reg : List bbs_io_transformer)
    (ty : bbs_io_transform_type) (direction : Nat) (t : bbs_io_transformer)
    (h : find_transformer reg ty direction = some t) :
    t.dir &&& direction ≠ 0 ∧ t.type = ty := by
  unfold find_transformer at h
  have := List.find?_some h
  simp only [Bool.and_eq_true, decide_eq_true_eq] at this
  exact this

theorem possible_true_active_false (trans : List bbs_io_transformation)
    (ty : bbs_io_transform_type)
    (h : bbs_io_transform_possible trans ty = true) :
    bbs_io_transform_active trans ty = false := by
  unfold bbs_io_transform_possible at h
  by_cases ha : bbs_io_transform_active trans ty = true
  · simp [ha] at h
  · simpa using ha

theorem post_hook_hook_fail (trans : List bbs_io_transformation)
    (t : bbs_io_transformer) (res : Int) (d : Option Nat) (h : res ≠ 0) :
    setup_post_hook trans t res d = (res, trans, []) := by
  unfold setup_post_hook
  rw [if_neg h]

theorem post_hook_store_fail (trans : List bbs_io_transformation)
    (t : bbs_io_transformer) (d : Option Nat)
    (h : (io_transform_store trans t d).1 ≠ 0) :
    setup_post_hook trans t 0 d =
      (1, (io_transform_store trans t d).2, [IOEvent.cleanup t.name d]) := by
  unfold setup_post_hook
  rw [if_pos rfl, if_pos h]

theorem post_hook_store_ok (trans : List bbs_io_transformation)
    (t : bbs_io_transformer) (d : Option Nat)
    (h : (io_transform_store trans t d).1 = 0) :
    setup_post_hook trans t 0 d =
      (0, (io_transform_store trans t d).2, [IOEvent.modRef t.module]) := by
  unfold setup_post_hook
  rw [if_pos rfl, if_neg (not_not_intro h)]

theorem setup_eq_not_possible (reg : List bbs_io_transformer)
    (trans : List bbs_io_transformation) (ty : bbs_io_transform_type)
    (direction : Nat) (rfd wfd : Int) (arg : Option Nat)
    (hp : bbs_io_transform_possible trans ty = false) :
    bbs_io_transform_setup reg trans ty direction rfd wfd arg =
      (-1, trans, [], rfd, wfd) := by
  unfold bbs_io_transform_setup
  rw [hp]
  simp

theorem setup_eq_no_slots (reg : List bbs_io_transformer)
    (trans : List bbs_io_transformation) (ty : bbs_io_transform_type)
    (direction : Nat) (rfd wfd : Int) (arg : Option Nat)
    (hp : bbs_io_transform_possible trans ty = true)
    (hs : io_transform_slots_free trans = false) :
    bbs_io_transform_setup reg trans ty direction rfd wfd arg =
      (-1, trans, [], rfd, wfd) := by
  unfold bbs_io_transform_setup
  rw [hp, hs]
  simp

theorem setup_eq_no_transformer (reg : List bbs_io_transformer)
    (trans : List bbs_io_transformation) (ty : bbs_io_transform_type)
    (direction : Nat) (rfd wfd : Int) (arg : Option Nat)
    (hp : bbs_io_transform_possible trans ty = true)
    (hs : io_transform_slots_free trans = true)
    (hfind : find_transformer reg ty direction = none) :
    bbs_io_transform_setup reg trans ty direction rfd wfd arg =
      (-1, trans, [], rfd, wfd) := by
  unfold bbs_io_transform_setup
  rw [hp, hs, hfind]
  simp

theorem setup_eq_found (reg : List bbs_io_transformer)
    (trans : List bbs_io_transformation) (ty : bbs_io_transform_type)
    (direction : Nat) (rfd wfd : Int) (arg : Option Nat) (t : bbs_io_transformer)
    (hp : bbs_io_transform_possible trans ty = true)
    (hs : io_transform_slots_free trans = true)
    (hfind : find_transformer reg ty direction = some t) :
    bbs_io_transform_setup reg trans ty direction rfd wfd arg =
      ((setup_post_hook trans t (t.setup rfd wfd direction arg).1
          ((t.setup rfd wfd direction arg).2.2.2)).1,
       (setup_post_hook trans t (t.setup rfd wfd direction arg).1
          ((t.setup rfd wfd direction arg).2.2.2)).2.1,
       (setup_post_hook trans t (t.setup rfd wfd direction arg).1
          ((t.setup rfd wfd direction arg).2.2.2)).2.2,
       (t.setup rfd wfd direction arg).2.1,
       (t.setup rfd wfd direction arg).2.2.1) := by
  unfold bbs_io_transform_setup
  rw [hp, hs, hfind]
  simp

theorem setup_fail_stack_eq (reg : List bbs_io_transformer)
    (trans : List bbs_io_transformation) (ty : bbs_io_transform_type)
    (direction : Nat) (rfd wfd : Int) (arg : Option Nat)
    (h : (bbs_io_transform_setup reg trans ty direction rfd wfd arg).1 ≠ 0) :
    (bbs_io_transform_setup reg trans ty direction rfd wfd arg).2.1 = trans := by
  by_cases hp : bbs_io_transform_possible trans ty = true
  · by_cases hs : io_transform_slots_free trans = true
    · cases hfind : find_transformer reg ty direction with
      | none => rw [setup_eq_no_transformer reg trans ty direction rfd wfd arg hp hs hfind]
      | some t =>
        rw [setup_eq_found reg trans ty direction rfd wfd arg t hp hs hfind]
        by_cases hres : (t.setup rfd wfd direction arg).1 = 0
        · rw [hres]
          by_cases hst :
              (io_transform_store trans t ((t.setup rfd wfd direction arg).2.2.2)).1 ≠ 0
          · rw [post_hook_store_fail trans t _ hst]
            exact store_fail_id _ _ _ hst
          · simp only [ne_eq, not_not] at hst
            exfalso
            apply h
            rw [setup_eq_found reg trans ty direction rfd wfd arg t hp hs hfind, hres,
              post_hook_store_ok trans t _ hst]
        · rw [post_hook_hook_fail trans t _ _ hres]
    · simp only [Bool.not_eq_true] at hs
      rw [setup_eq_no_slots reg trans ty direction rfd wfd arg hp hs]
  · simp only [Bool.not_eq_true] at hp
    rw [setup_eq_not_possible reg trans ty direction rfd wfd arg hp]

theorem setup_success_spec (reg : List bbs_io_transformer)
    (trans : List bbs_io_transformation) (ty : bbs_io_transform_type)
    (direction : Nat) (rfd wfd : Int) (arg : Option Nat)
    (h : (bbs_io_transform_setup reg trans ty direction rfd wfd arg).1 = 0) :
    ∃ t, find_transformer reg ty direction = some t ∧
      bbs_io_transform_possible trans ty = true ∧
      io_transform_slots_free trans = true ∧
      (t.setup rfd wfd direction arg).1 = 0 ∧
      (io_transform_store trans t ((t.setup rfd wfd direction arg).2.2.2)).1 = 0 ∧
      (bbs_io_transform_setup reg trans ty direction rfd wfd arg).2.1 =
        (io_transform_store trans t ((t.setup rfd wfd direction arg).2.2.2)).2 ∧
      (bbs_io_transform_setup reg trans ty direction rfd wfd arg).2.2.1 =
        [IOEvent.modRef t.module] := by
  by_cases hp : bbs_io_transform_possible trans ty = true
  · by_cases hs : io_transform_slots_free trans = true
    · cases hfind : find_transformer reg ty direction with
      | none =>
        rw [setup_eq_no_transformer reg trans ty direction rfd wfd arg hp hs hfind] at h
        simp at h
      | some t =>
        rw [setup_eq_found reg trans ty direction rfd wfd arg t hp hs hfind] at h
        by_cases hres : (t.setup rfd wfd direction arg).1 = 0
        · rw [hres] at h
          by_cases hst :
              (io_transform_store trans t ((t.setup rfd wfd direction arg).2.2.2)).1 ≠ 0
          · rw [post_hook_store_fail trans t _ hst] at h
            simp at h
          · simp only [ne_eq, not_not] at hst
            refine ⟨t, rfl, hp, hs, hres, hst, ?_, ?_⟩ <;>
              rw [setup_eq_found reg trans ty direction rfd wfd arg t hp hs hfind, hres,
                post_hook_store_ok trans t _ hst]
        · rw [post_hook_hook_fail trans t _ _ hres] at h
          exact absurd h hres
    · simp only [Bool.not_eq_true] at hs
      rw [setup_eq_no_slots reg trans ty direction rfd wfd arg hp hs] at h
      simp at h
  · simp only [Bool.not_eq_true] at hp
    rw [setup_eq_not_possible reg trans ty direction rfd wfd arg hp] at h
    simp at h

/-- C2: a setup call for a kind that already has an active transformation
on the stack fails with -1 and leaves the whole stack (in particular the
already-active slot), the trace and the descriptors untouched; moreover
any setup call preserves the invariant that at most one slot per kind is
active. -/
theorem c2_single_active_per_kind :
    (∀ (reg : List bbs_io_transformer) (trans : List bbs_io_transformation)
       (ty : bbs_io_transform_type) (direction : Nat) (rfd wfd : Int) (arg : Option Nat),
       bbs_io_transform_active trans ty = true →
       bbs_io_transform_setup reg trans ty direction rfd wfd arg =
         (-1, trans, [], rfd, wfd)) ∧
    (∀ (reg : List bbs_io_transformer) (trans : List bbs_io_transformation)
       (ty : bbs_io_transform_type) (direction : Nat) (rfd wfd : Int) (arg : Option Nat),
       (∀ ty2, kind_count trans ty2 ≤ 1) →
       ∀ ty2, kind_count
         (bbs_io_transform_setup reg trans ty direction rfd wfd arg).2.1 ty2 ≤ 1) := by
  constructor
  · intro reg trans ty direction rfd wfd arg h
    have hp : bbs_io_transform_possible trans ty = false := by
      unfold bbs_io_transform_possible
      rw [h]
      simp
    exact setup_eq_not_possible reg trans ty direction rfd wfd arg hp
  · intro reg trans ty direction rfd wfd arg hk ty2
    by_cases hz : (bbs_io_transform_setup reg trans ty direction rfd wfd arg).1 = 0
    · obtain ⟨t, hfind, hp, hs, hres, hst, hstack, hevs⟩ :=
        setup_success_spec reg trans ty direction rfd wfd arg hz
      rw [hstack, store_kind_count _ _ _ hst ty2]
      have hty : t.type = ty := (find_transformer_spec _ _ _ _ hfind).2
      have hact : bbs_io_transform_active trans ty = false :=
        possible_true_active_false _ _ hp
      by_cases hm :
          slot_matches { transformer := some t,
                         data := (t.setup rfd wfd direction arg).2.2.2 } ty2 = true
      · have hty2 : t.type = ty2 := by
          unfold slot_matches at hm
          cases hdm : (t.setup rfd wfd direction arg).2.2.2 with
          | none => rw [hdm] at hm; simp at hm
          | some d0 => rw [hdm] at hm; simpa using hm
        have hzero : kind_count trans ty2 = 0 := by
          have he : ty2 = ty := by rw [← hty2, hty]
          rw [he]
          exact active_false_kind_count trans ty hact
        rw [hm]
        simp [hzero]
      · simp only [Bool.not_eq_true] at hm
        rw [hm]
        simpa using hk ty2
    · rw [setup_fail_stack_eq reg trans ty direction rfd wfd arg hz]
      exact hk ty2

/-- C2 witness: on a stack with an active compression slot, a second
compression setup fails leaving everything unchanged, and the
one-active-slot-per-kind bound is preserved by a concrete setup. -/
theorem c2_single_active_per_kind_witness :
    bbs_io_transform_active demo_comp_stack .TRANSFORM_DEFLATE_COMPRESSION = true ∧
    bbs_io_transform_setup [tls_demo, deflate_demo] demo_comp_stack
      .TRANSFORM_DEFLATE_COMPRESSION 3 0 1 none = (-1, demo_comp_stack, [], 0, 1) ∧
    (∀ ty2, kind_count demo_comp_stack ty2 ≤ 1) ∧
    (∀ ty2, kind_count
      (bbs_io_transform_setup [tls_demo, deflate_demo] demo_comp_stack
        .TRANSFORM_TLS_ENCRYPTION 3 0 1 none).2.1 ty2 ≤ 1) :=
  ⟨by decide,
   c2_single_active_per_kind.1 [tls_demo, deflate_demo] demo_comp_stack
     .TRANSFORM_DEFLATE_COMPRESSION 3 0 1 none (by decide),
   by intro ty2; cases ty2 <;> decide,
   c2_single_active_per_kind.2 [tls_demo, deflate_demo] demo_comp_stack
     .TRANSFORM_TLS_ENCRYPTION 3 0 1 none (by intro ty2; cases ty2 <;> decide)⟩

/-- C5: when the setup hook succeeds but slot storage fails, the cleanup
hook is invoked exactly once, no module reference is taken and the
result is the distinguished positive value 1 with the stack unchanged;
when storage succeeds the trace holds exactly one module reference and
no cleanup and the result is 0; and, provided the found transformer's
hook honours the no-positive-status contract, every other outcome is a
negative result. -/
theorem c5_setup_resource_paths :
    (∀ (trans : List bbs_io_transformation) (t : bbs_io_transformer) (d : Option Nat),
       (io_transform_store trans t d).1 ≠ 0 →
       setup_post_hook trans t 0 d = (1, trans, [IOEvent.cleanup t.name d])) ∧
    (∀ (reg : List bbs_io_transformer) (trans : List bbs_io_transformation)
       (ty : bbs_io_transform_type) (direction : Nat) (rfd wfd : Int) (arg : Option Nat),
       (bbs_io_transform_setup reg trans ty direction rfd wfd arg).1 = 0 →
       ∃ t, find_transformer reg ty direction = some t ∧
         (bbs_io_transform_setup reg trans ty direction rfd wfd arg).2.2.1 =
           [IOEvent.modRef t.module]) ∧
    (∀ (reg : List bbs_io_transformer) (trans : List bbs_io_transformation)
       (ty : bbs_io_transform_type) (direction : Nat) (rfd wfd : Int) (arg : Option Nat),
       (∀ t, find_transformer reg ty direction = some t →
          (t.setup rfd wfd direction arg).1 ≤ 0) →
       (bbs_io_transform_setup reg trans ty direction rfd wfd arg).1 ≠ 0 →
       (bbs_io_transform_setup reg trans ty direction rfd wfd arg).1 < 0) := by
  refine ⟨?_, ?_, ?_⟩
  · intro trans t d h
    rw [post_hook_store_fail trans t d h, store_fail_id trans t d h]
  · intro reg trans ty direction rfd wfd arg h
    obtain ⟨t, hfind, _, _, _, _, _, hevs⟩ :=
      setup_success_spec reg trans ty direction rfd wfd arg h
    exact ⟨t, hfind, hevs⟩
  · intro reg trans ty direction rfd wfd arg hcontract h
    by_cases hp : bbs_io_transform_possible trans ty = true
    · by_cases hs : io_transform_slots_free trans = true
      · cases hfind : find_transformer reg ty direction with
        | none =>
          rw [setup_eq_no_transformer reg trans ty direction rfd wfd arg hp hs hfind]
          norm_num
        | some t =>
          by_cases hres : (t.setup rfd wfd direction arg).1 = 0
          · exfalso
            apply h
            rw [setup_eq_found reg trans ty direction rfd wfd arg t hp hs hfind, hres,
              post_hook_store_ok trans t _ (slots_free_store trans t _ hs)]
          · rw [setup_eq_found reg trans ty direction rfd wfd arg t hp hs hfind,
              post_hook_hook_fail trans t _ _ hres]
            have hle := hcontract t hfind
            omega
      · simp only [Bool.not_eq_true] at hs
        rw [setup_eq_no_slots reg trans ty direction rfd wfd arg hp hs]
        norm_num
    · simp only [Bool.not_eq_true] at hp
      rw [setup_eq_not_possible reg trans ty direction rfd wfd arg hp]
      norm_num

/-- C5 witness: a full stack makes storage fail after a successful hook
(cleanup invoked, no reference, result 1); a successful setup yields
exactly one module reference; a declining hook yields a negative result. -/
theorem c5_setup_resource_paths_witness :
    (io_transform_store [{ transformer := some tls_demo, data := some 1 }]
       deflate_demo (some 2)).1 ≠ 0 ∧
    setup_post_hook [{ transformer := some tls_demo, data := some 1 }]
      deflate_demo 0 (some 2) =
      (1, [{ transformer := some tls_demo, data := some 1 }],
       [IOEvent.cleanup deflate_demo.name (some 2)]) ∧
    (∃ t, find_transformer [tls_demo] .TRANSFORM_TLS_ENCRYPTION 3 = some t ∧
       (bbs_io_transform_setup [tls_demo] [empty_slot]
         .TRANSFORM_TLS_ENCRYPTION 3 0 1 none).2.2.1 = [IOEvent.modRef t.module]) ∧
    (bbs_io_transform_setup [tls_fail_demo] [empty_slot]
      .TRANSFORM_TLS_ENCRYPTION 3 0 1 none).1 < 0 := by
  refine ⟨by decide, ?_, ?_, ?_⟩
  · exact c5_setup_resource_paths.1 [{ transformer := some tls_demo, data := some 1 }]
      deflate_demo (some 2) (by decide)
  · exact c5_setup_resource_paths.2.1 [tls_demo] [empty_slot]
      .TRANSFORM_TLS_ENCRYPTION 3 0 1 none (by decide)
  · refine c5_setup_resource_paths.2.2 [tls_fail_demo] [empty_slot]
      .TRANSFORM_TLS_ENCRYPTION 3 0 1 none ?_ (by decide)
    intro t ht
    rw [show find_transformer [tls_fail_demo] .TRANSFORM_TLS_ENCRYPTION 3 =
      some tls_fail_demo from rfl] at ht
    injection ht with ht
    rw [← ht]
    decide

/-- C10: when a setup succeeds but the hook produced NULL private data,
the stored slot consumes one unit of the stack's capacity (it is
occupied for io_transform_slots_free, which tests the transformer
pointer), yet the stack reports exactly the same activity as before the
call (the slot is invisible to bbs_io_transform_active, which tests the
data pointer), the kind is reported inactive, querying it yields -1, and
bbs_io_teardown_all_transformers produces the same trace as on the old
stack — the phantom slot's cleanup is never invoked. -/
theorem c10_null_private_state :
    ∀ (reg : List bbs_io_transformer) (trans : List bbs_io_transformation)
      (ty : bbs_io_transform_type) (direction : Nat) (rfd wfd : Int)
      (arg : Option Nat) (t : bbs_io_transformer),
      find_transformer reg ty direction = some t →
      (t.setup rfd wfd direction arg).2.2.2 = none →
      (bbs_io_transform_setup reg trans ty direction rfd wfd arg).1 = 0 →
      free_slot_count
          (bbs_io_transform_setup reg trans ty direction rfd wfd arg).2.1 + 1 =
        free_slot_count trans ∧
      (∀ ty2, bbs_io_transform_active
          (bbs_io_transform_setup reg trans ty direction rfd wfd arg).2.1 ty2 =
        bbs_io_transform_active trans ty2) ∧
      bbs_io_transform_active
        (bbs_io_transform_setup reg trans ty direction rfd wfd arg).2.1 ty = false ∧
      (∀ q, bbs_io_transform_query
        (bbs_io_transform_setup reg trans ty direction rfd wfd arg).2.1 ty q = -1) ∧
      (bbs_io_teardown_all_transformers
          (bbs_io_transform_setup reg trans ty direction rfd wfd arg).2.1).2 =
        (bbs_io_teardown_all_transformers trans).2 := by
  intro reg trans ty direction rfd wfd arg t hfind hd h
  obtain ⟨t2, hfind2, hp, hs, hres, hst, hstack, hevs⟩ :=
    setup_success_spec reg trans ty direction rfd wfd arg h
  rw [hfind] at hfind2
  injection hfind2 with ht2
  subst ht2
  rw [hd] at hst hstack
  have hanone : bbs_io_transform_active
      (bbs_io_transform_setup reg trans ty direction rfd wfd arg).2.1 ty = false := by
    rw [hstack, store_none_active trans t hst ty]
    exact possible_true_active_false trans ty hp
  refine ⟨?_, ?_, hanone, ?_, ?_⟩
  · rw [hstack]
    exact store_free_count trans t none hst
  · intro ty2
    rw [hstack]
    exact store_none_active trans t hst ty2
  · intro q
    exact active_false_query _ ty hanone q
  · rw [hstack]
    exact store_none_teardown_events trans t hst

/-- C10 witness: a logging transformer whose hook succeeds with NULL
private data on a two-slot stack. -/
theorem c10_null_private_state_witness :
    find_transformer [log_nulldata_demo] .TRANSFORM_SESSION_LOGGING 3 =
      some log_nulldata_demo ∧
    (log_nulldata_demo.setup 0 1 3 none).2.2.2 = none ∧
    (bbs_io_transform_setup [log_nulldata_demo] [empty_slot, empty_slot]
      .TRANSFORM_SESSION_LOGGING 3 0 1 none).1 = 0 ∧
    free_slot_count
        (bbs_io_transform_setup [log_nulldata_demo] [empty_slot, empty_slot]
          .TRANSFORM_SESSION_LOGGING 3 0 1 none).2.1 + 1 =
      free_slot_count [empty_slot, empty_slot] ∧
    bbs_io_transform_active
      (bbs_io_transform_setup [log_nulldata_demo] [empty_slot, empty_slot]
        .TRANSFORM_SESSION_LOGGING 3 0 1 none).2.1 .TRANSFORM_SESSION_LOGGING = false ∧
    (bbs_io_teardown_all_transformers
        (bbs_io_transform_setup [log_nulldata_demo] [empty_slot, empty_slot]
          .TRANSFORM_SESSION_LOGGING 3 0 1 none).2.1).2 =
      (bbs_io_teardown_all_transformers [empty_slot, empty_slot]).2 := by
  have hc := c10_null_private_state [log_nulldata_demo] [empty_slot, empty_slot]
    .TRANSFORM_SESSION_LOGGING 3 0 1 none log_nulldata_demo rfl rfl (by decide)
  exact ⟨rfl, rfl, by decide, hc.1, hc.2.2.1, hc.2.2.2.2⟩

/-! Teardown lemmas. -/

theorem teardown_of_no_active (l : List bbs_io_transformation)
    (h : ∀ s ∈ l, s.data.isSome = false) :
    bbs_io_teardown_all_transformers l = (l, []) := by
  induction l with
  | nil => rfl
  | cons s rest ih =>
    unfold bbs_io_teardown_all_transformers
    rw [h s (List.mem_cons_self s rest)]
    rw [ih (fun x hx => h x (List.mem_cons_of_mem s hx))]
    simp

theorem teardown_clears_all (l : List bbs_io_transformation) (h : stack_wf l) :
    ∀ s ∈ (bbs_io_teardown_all_transformers l).1, s.data.isSome = false := by
  induction l with
  | nil => intro s hs; simp [bbs_io_teardown_all_transformers] at hs
  | cons s rest ih =>
    have hrest : stack_wf rest := fun x hx => h x (List.mem_cons_of_mem s hx)
    intro x hx
    unfold bbs_io_teardown_all_transformers at hx
    by_cases hd : s.data.isSome = true
    · rw [hd] at hx
      simp only [if_true] at hx
      have hst : s.transformer.isSome = true := h s (List.mem_cons_self s rest) hd
      obtain ⟨t0, ht0⟩ := Option.isSome_iff_exists.mp hst
      unfold teardown_transformation at hx
      rw [ht0] at hx
      simp only [List.mem_cons] at hx
      cases hx with
      | inl hx => rw [hx]; rfl
      | inr hx => exact ih hrest x hx
    · simp only [Bool.not_eq_true] at hd
      rw [hd] at hx
      simp only [Bool.false_eq_true, if_false, List.mem_cons] at hx
      cases hx with
      | inl hx => rw [hx]; rw [hd]
      | inr hx => exact ih hrest x hx

theorem teardown_event_counts (l : List bbs_io_transformation) (h : stack_wf l) :
    (bbs_io_teardown_all_transformers l).2.countP is_cleanup_event =
      active_slot_count l ∧
    (bbs_io_teardown_all_transformers l).2.countP is_modunref_event =
      active_slot_count l := by
  induction l with
  | nil => exact ⟨rfl, rfl⟩
  | cons s rest ih =>
    have hrest : stack_wf rest := fun x hx => h x (List.mem_cons_of_mem s hx)
    obtain ⟨ih1, ih2⟩ := ih hrest
    unfold bbs_io_teardown_all_transformers
    by_cases hd : s.data.isSome = true
    · rw [hd]
      simp only [if_true]
      have hst : s.transformer.isSome = true := h s (List.mem_cons_self s rest) hd
      obtain ⟨t0, ht0⟩ := Option.isSome_iff_exists.mp hst
      unfold teardown_transformation
      rw [ht0]
      simp only [List.countP_append]
      constructor
      · rw [ih1]
        simp only [active_slot_count, List.countP_cons, hd]
        simp [is_cleanup_event, is_modunref_event, List.countP_cons]
        omega
      · rw [ih2]
        simp only [active_slot_count, List.countP_cons, hd]
        simp [is_cleanup_event, is_modunref_event, List.countP_cons]
        omega
    · simp only [Bool.not_eq_true] at hd
      rw [hd]
      simp only [Bool.false_eq_true, if_false]
      constructor
      · rw [ih1]
        simp [active_slot_count, List.countP_cons, hd]
      · rw [ih2]
        simp [active_slot_count, List.countP_cons, hd]

/-- C6: on a well-formed stack with K active slots, teardown invokes the
cleanup hook exactly K times and releases exactly K module references,
leaves the stack with zero active slots, and a second teardown of the
resulting stack performs no cleanup and changes nothing. -/
theorem c6_teardown_all (trans : List bbs_io_transformation) (h : stack_wf trans) :
    (bbs_io_teardown_all_transformers trans).2.countP is_cleanup_event =
      active_slot_count trans ∧
    (bbs_io_teardown_all_transformers trans).2.countP is_modunref_event =
      active_slot_count trans ∧
    active_slot_count (bbs_io_teardown_all_transformers trans).1 = 0 ∧
    bbs_io_teardown_all_transformers (bbs_io_teardown_all_transformers trans).1 =
      ((bbs_io_teardown_all_transformers trans).1, []) := by
  obtain ⟨h1, h2⟩ := teardown_event_counts trans h
  have hclear := teardown_clears_all trans h
  refine ⟨h1, h2, ?_, ?_⟩
  · unfold active_slot_count
    rw [List.countP_eq_zero]
    intro s hs
    simp [hclear s hs]
  · exact teardown_of_no_active _ hclear

/-- C6 witness: a concrete stack with two active slots and one free slot. -/
theorem c6_teardown_all_witness :
    stack_wf [{ transformer := some tls_demo, data := some 1 },
              { transformer := some deflate_demo, data := some 2 }, empty_slot] ∧
    (bbs_io_teardown_all_transformers
        [{ transformer := some tls_demo, data := some 1 },
         { transformer := some deflate_demo, data := some 2 },
         empty_slot]).2.countP is_cleanup_event =
      active_slot_count
        [{ transformer := some tls_demo, data := some 1 },
         { transformer := some deflate_demo, data := some 2 }, empty_slot] ∧
    active_slot_count
      (bbs_io_teardown_all_transformers
        [{ transformer := some tls_demo, data := some 1 },
         { transformer := some deflate_demo, data := some 2 },
         empty_slot]).1 = 0 ∧
    bbs_io_teardown_all_transformers
        (bbs_io_teardown_all_transformers
          [{ transformer := some tls_demo, data := some 1 },
           { transformer := some deflate_demo, data := some 2 }, empty_slot]).1 =
      ((bbs_io_teardown_all_transformers
          [{ transformer := some tls_demo, data := some 1 },
           { transformer := some deflate_demo, data := some 2 }, empty_slot]).1, []) := by
  have hc := c6_teardown_all
    [{ transformer := some tls_demo, data := some 1 },
     { transformer := some deflate_demo, data := some 2 }, empty_slot] (by decide)
  exact ⟨by decide, hc.1, hc.2.2.1, hc.2.2.2⟩

/-! Fresh-stack lemmas for the ordering claim. -/

theorem active_replicate_empty (n : Nat) (ty : bbs_io_transform_type) :
    bbs_io_transform_active (List.replicate n empty_slot) ty = false := by
  induction n with
  | zero => rfl
  | succ m ih =>
    rw [List.replicate_succ]
    unfold bbs_io_transform_active
    simp only [empty_slot]
    exact ih

theorem slots_free_replicate_succ (m : Nat) :
    io_transform_slots_free (List.replicate (m + 1) empty_slot) = true := by
  rw [List.replicate_succ]
  simp [io_transform_slots_free, empty_slot]

theorem store_replicate_succ (m : Nat) (t : bbs_io_transformer) (d : Option Nat) :
    io_transform_store (List.replicate (m + 1) empty_slot) t d =
      (0, { transformer := some t, data := d } :: List.replicate m empty_slot) := by
  rw [List.replicate_succ]
  simp [io_transform_store, empty_slot]

theorem store_cons_occupied (s : bbs_io_transformation)
    (rest : List bbs_io_transformation) (t : bbs_io_transformer) (d : Option Nat)
    (h : s.transformer.isNone = false) :
    io_transform_store (s :: rest) t d =
      ((io_transform_store rest t d).1, s :: (io_transform_store rest t d).2) := by
  conv_lhs => rw [io_transform_store]
  simp [h]

theorem active_cons_ne (t : bbs_io_transformer) (d : Option Nat)
    (rest : List bbs_io_transformation) (ty : bbs_io_transform_type)
    (h : t.type ≠ ty) :
    bbs_io_transform_active ({ transformer := some t, data := d } :: rest) ty =
      bbs_io_transform_active rest ty := by
  cases d <;> simp [bbs_io_transform_active, h]

/-- C1: requesting TLS encryption while deflate compression is active on
the stack fails with -1 and leaves the stack, the trace and the
descriptors untouched; conversely, on a fresh stack (all slots empty,
capacity at least two), with registered transformers of both kinds
matching the direction and whose setup hooks succeed, setting up
encryption and then compression both return 0. -/
theorem c1_encryption_ordering :
    (∀ (reg : List bbs_io_transformer) (trans : List bbs_io_transformation)
       (direction : Nat) (rfd wfd : Int) (arg : Option Nat),
       bbs_io_transform_active trans .TRANSFORM_DEFLATE_COMPRESSION = true →
       bbs_io_transform_setup reg trans .TRANSFORM_TLS_ENCRYPTION direction rfd wfd arg =
         (-1, trans, [], rfd, wfd)) ∧
    (∀ (reg : List bbs_io_transformer) (n : Nat) (direction : Nat)
       (rfd wfd : Int) (arg : Option Nat) (tE tC : bbs_io_transformer),
       2 ≤ n →
       find_transformer reg .TRANSFORM_TLS_ENCRYPTION direction = some tE →
       find_transformer reg .TRANSFORM_DEFLATE_COMPRESSION direction = some tC →
       (∀ a b, (tE.setup a b direction arg).1 = 0) →
       (∀ a b, (tC.setup a b direction arg).1 = 0) →
       (bbs_io_transform_setup reg (List.replicate n empty_slot)
          .TRANSFORM_TLS_ENCRYPTION direction rfd wfd arg).1 = 0 ∧
       (bbs_io_transform_setup reg
          (bbs_io_transform_setup reg (List.replicate n empty_slot)
            .TRANSFORM_TLS_ENCRYPTION direction rfd wfd arg).2.1
          .TRANSFORM_DEFLATE_COMPRESSION direction
          (bbs_io_transform_setup reg (List.replicate n empty_slot)
            .TRANSFORM_TLS_ENCRYPTION direction rfd wfd arg).2.2.2.1
          (bbs_io_transform_setup reg (List.replicate n empty_slot)
            .TRANSFORM_TLS_ENCRYPTION direction rfd wfd arg).2.2.2.2
          arg).1 = 0) := by
  constructor
  · intro reg trans direction rfd wfd arg h
    have hp : bbs_io_transform_possible trans .TRANSFORM_TLS_ENCRYPTION = false := by
      unfold bbs_io_transform_possible
      by_cases hTLS : bbs_io_transform_active trans .TRANSFORM_TLS_ENCRYPTION = true <;>
        simp [hTLS, h]
    exact setup_eq_not_possible reg trans _ direction rfd wfd arg hp
  · intro reg n direction rfd wfd arg tE tC hn hfE hfC hE hC
    obtain ⟨m, rfl⟩ : ∃ m, n = m + 2 := ⟨n - 2, by omega⟩
    have htyE : tE.type = .TRANSFORM_TLS_ENCRYPTION :=
      (find_transformer_spec _ _ _ _ hfE).2
    have hp1 : bbs_io_transform_possible (List.replicate (m + 2) empty_slot)
        .TRANSFORM_TLS_ENCRYPTION = true := by
      simp [bbs_io_transform_possible, active_replicate_empty]
    have hs1 : io_transform_slots_free (List.replicate (m + 2) empty_slot) = true :=
      slots_free_replicate_succ (m + 1)
    have hE1 : (tE.setup rfd wfd direction arg).1 = 0 := hE rfd wfd
    have hstore1 := store_replicate_succ (m + 1) tE ((tE.setup rfd wfd direction arg).2.2.2)
    have hst1 : (io_transform_store (List.replicate (m + 2) empty_slot) tE
        ((tE.setup rfd wfd direction arg).2.2.2)).1 = 0 := by
      rw [hstore1]
    have hX1 : bbs_io_transform_setup reg (List.replicate (m + 2) empty_slot)
        .TRANSFORM_TLS_ENCRYPTION direction rfd wfd arg =
        (0, { transformer := some tE, data := (tE.setup rfd wfd direction arg).2.2.2 } ::
              List.replicate (m + 1) empty_slot,
         [IOEvent.modRef tE.module],
         (tE.setup rfd wfd direction arg).2.1,
         (tE.setup rfd wfd direction arg).2.2.1) := by
      rw [setup_eq_found reg _ _ direction rfd wfd arg tE hp1 hs1 hfE, hE1,
        post_hook_store_ok _ _ _ hst1, hstore1]
    refine ⟨by rw [hX1], ?_⟩
    rw [hX1]
    have hact1 : bbs_io_transform_active
        ({ transformer := some tE, data := (tE.setup rfd wfd direction arg).2.2.2 } ::
          List.replicate (m + 1) empty_slot) .TRANSFORM_DEFLATE_COMPRESSION = false := by
      rw [active_cons_ne tE _ _ _ (by rw [htyE]; decide)]
      exact active_replicate_empty (m + 1) _
    have hp2 : bbs_io_transform_possible
        ({ transformer := some tE, data := (tE.setup rfd wfd direction arg).2.2.2 } ::
          List.replicate (m + 1) empty_slot) .TRANSFORM_DEFLATE_COMPRESSION = true := by
      unfold bbs_io_transform_possible
      simp [hact1]
    have hs2 : io_transform_slots_free
        ({ transformer := some tE, data := (tE.setup rfd wfd direction arg).2.2.2 } ::
          List.replicate (m + 1) empty_slot) = true := by
      unfold io_transform_slots_free
      simp [slots_free_replicate_succ m]
    have hC1 : (tC.setup ((tE.setup rfd wfd direction arg).2.1)
        ((tE.setup rfd wfd direction arg).2.2.1) direction arg).1 = 0 := hC _ _
    have hst2 : (io_transform_store
        ({ transformer := some tE, data := (tE.setup rfd wfd direction arg).2.2.2 } ::
          List.replicate (m + 1) empty_slot) tC
        ((tC.setup ((tE.setup rfd wfd direction arg).2.1)
          ((tE.setup rfd wfd direction arg).2.2.1) direction arg).2.2.2)).1 = 0 := by
      rw [store_cons_occupied, store_replicate_succ m]
      rfl
    rw [setup_eq_found reg _ _ direction _ _ arg tC hp2 hs2 hfC, hC1,
      post_hook_store_ok _ _ _ hst2]

/-- C1 witness: with concrete TLS and deflate transformers registered,
encryption after active compression fails unchanged, while encryption
followed by compression on a fresh two-slot stack succeeds twice. -/
theorem c1_encryption_ordering_witness :
    bbs_io_transform_active demo_comp_stack .TRANSFORM_DEFLATE_COMPRESSION = true ∧
    bbs_io_transform_setup [tls_demo, deflate_demo] demo_comp_stack
      .TRANSFORM_TLS_ENCRYPTION 3 0 1 none = (-1, demo_comp_stack, [], 0, 1) ∧
    (bbs_io_transform_setup [tls_demo, deflate_demo] (List.replicate 2 empty_slot)
      .TRANSFORM_TLS_ENCRYPTION 3 0 1 none).1 = 0 ∧
    (bbs_io_transform_setup [tls_demo, deflate_demo]
      (bbs_io_transform_setup [tls_demo, deflate_demo] (List.replicate 2 empty_slot)
        .TRANSFORM_TLS_ENCRYPTION 3 0 1 none).2.1
      .TRANSFORM_DEFLATE_COMPRESSION 3
      (bbs_io_transform_setup [tls_demo, deflate_demo] (List.replicate 2 empty_slot)
        .TRANSFORM_TLS_ENCRYPTION 3 0 1 none).2.2.2.1
      (bbs_io_transform_setup [tls_demo, deflate_demo] (List.replicate 2 empty_slot)
        .TRANSFORM_TLS_ENCRYPTION 3 0 1 none).2.2.2.2
      none).1 = 0 := by
  refine ⟨by decide, ?_, ?_, ?_⟩
  · exact c1_encryption_ordering.1 [tls_demo, deflate_demo] demo_comp_stack
      3 0 1 none (by decide)
  · exact (c1_encryption_ordering.2 [tls_demo, deflate_demo] 2 3 0 1 none
      tls_demo deflate_demo (by decide) rfl rfl (fun a b => rfl) (fun a b => rfl)).1
  · exact (c1_encryption_ordering.2 [tls_demo, deflate_demo] 2 3 0 1 none
      tls_demo deflate_demo (by decide) rfl rfl (fun a b => rfl) (fun a b => rfl)).2

/-! Session-identifier lemmas. -/

theorem range'_map_mod (w : Nat) : ∀ (n a b : Nat), a % w = b % w →
    (List.range' a n).map (· % w) = (List.range' b n).map (· % w) := by
  intro n
  induction n with
  | zero => intro a b _; rfl
  | succ k ih =>
    intro a b h
    rw [List.range'_succ, List.range'_succ, List.map_cons, List.map_cons, h,
      ih (a + 1) (b + 1) (by rw [Nat.add_mod a 1 w, Nat.add_mod b 1 w, h])]

theorem apply_sess_ops_ids (ops : List sess_op) : ∀ (st : sessions_state),
    (apply_sess_ops ops st).2 =
      (List.range' (st.io_session_io + 1) (apply_sess_ops ops st).2.length).map
        (· % UINT_MOD) := by
  induction ops with
  | nil => intro st; rfl
  | cons op rest ih =>
    intro st
    cases op with
    | sreg s ty ow =>
      by_cases hdup : (st.sessions.any fun i => decide (i.s = s)) = true
      · have hr : bbs_io_session_register st s ty ow = (-1, st) := by
          simp [bbs_io_session_register, hdup]
        simp only [apply_sess_ops, hr]
        norm_num
        exact ih st
      · simp only [Bool.not_eq_true] at hdup
        have hr : bbs_io_session_register st s ty ow =
            (0, sessions_state.mk
                  (st.sessions ++ [io_session.mk s ((st.io_session_io + 1) % UINT_MOD) ty ow])
                  ((st.io_session_io + 1) % UINT_MOD)) := by
          simp [bbs_io_session_register, hdup]
        simp only [apply_sess_ops, hr]
        norm_num
        rw [List.range'_succ, List.map_cons, List.cons_eq_cons]
        refine ⟨rfl, ?_⟩
        conv_lhs => rw [ih (sessions_state.mk
              (st.sessions ++ [io_session.mk s ((st.io_session_io + 1) % UINT_MOD) ty ow])
              ((st.io_session_io + 1) % UINT_MOD))]
        exact range'_map_mod UINT_MOD _ _ _
          (by
            show ((st.io_session_io + 1) % UINT_MOD + 1) % UINT_MOD =
              (st.io_session_io + 1 + 1) % UINT_MOD
            rw [Nat.mod_add_mod])
    | sunreg s =>
      simp only [apply_sess_ops]
      conv_lhs => rw [ih (bbs_io_session_unregister st s).2]
      rfl

theorem fresh_reg_ops_succeed : ∀ (n base : Nat) (st : sessions_state),
    (∀ j ∈ st.sessions, j.s ≤ base) →
    (apply_sess_ops (fresh_reg_ops base n) st).2.length = n := by
  intro n
  induction n with
  | zero => intro base st _; rfl
  | succ k ih =>
    intro base st hb
    have hnodup : (st.sessions.any fun i => decide (i.s = base + 1)) = false := by
      rw [List.any_eq_false]
      intro j hj
      have := hb j hj
      simp
      omega
    have hr : bbs_io_session_register st (base + 1) .TRANSFORM_SESSION_NODE 0 =
        (0, { sessions := st.sessions ++
                [{ s := base + 1, id := (st.io_session_io + 1) % UINT_MOD,
                   type := .TRANSFORM_SESSION_NODE, owner := 0 }],
              io_session_io := (st.io_session_io + 1) % UINT_MOD }) := by
      simp [bbs_io_session_register, hnodup]
    simp only [fresh_reg_ops, apply_sess_ops, hr]
    norm_num
    apply ih (base + 1)
    intro j hj
    simp only [List.mem_append, List.mem_singleton] at hj
    cases hj with
    | inl hj => have := hb j hj; omega
    | inr hj => rw [hj]

/-- C8 counterexample: after 2^32 + 1 successful registrations of
pairwise-distinct stacks in one process run the issued identifiers wrap:
they are neither strictly increasing nor free of reuse (the identifier 1
is issued both first and last), because io_session_io is a 32-bit
unsigned counter. -/
theorem c8_session_id_counterexample :
    ¬ List.Pairwise (· < ·)
        (apply_sess_ops (fresh_reg_ops 0 (UINT_MOD + 1)) sessions_init).2 ∧
    ¬ (apply_sess_ops (fresh_reg_ops 0 (UINT_MOD + 1)) sessions_init).2.Nodup := by
  have hlen : (apply_sess_ops (fresh_reg_ops 0 (UINT_MOD + 1)) sessions_init).2.length =
      UINT_MOD + 1 :=
    fresh_reg_ops_succeed (UINT_MOD + 1) 0 sessions_init
      (by intro j hj; simp [sessions_init] at hj)
  have hids := apply_sess_ops_ids (fresh_reg_ops 0 (UINT_MOD + 1)) sessions_init
  rw [hlen] at hids
  have hlen2 : ((List.range' (sessions_init.io_session_io + 1) (UINT_MOD + 1)).map
      (· % UINT_MOD)).length = UINT_MOD + 1 := by
    rw [List.length_map, List.length_range']
  constructor
  · intro hP
    rw [hids] at hP
    have hcontra := (List.pairwise_iff_getElem.mp hP) 0 UINT_MOD
      (by rw [hlen2]; omega) (by rw [hlen2]; omega) (by norm_num [UINT_MOD])
    simp only [List.getElem_map, List.getElem_range', sessions_init] at hcontra
    norm_num [UINT_MOD] at hcontra
  · intro hN
    rw [hids] at hN
    have hP : List.Pairwise (· ≠ ·) ((List.range' (sessions_init.io_session_io + 1)
        (UINT_MOD + 1)).map (· % UINT_MOD)) := hN
    have hcontra := (List.pairwise_iff_getElem.mp hP) 0 UINT_MOD
      (by rw [hlen2]; omega) (by rw [hlen2]; omega) (by norm_num [UINT_MOD])
    simp only [List.getElem_map, List.getElem_range', sessions_init] at hcontra
    norm_num [UINT_MOD] at hcontra

/-- C8 (amended): within one process run, as long as the total number of
successful registrations stays below 2^32, the identifiers issued by
successive successful registrations — across arbitrary interleavings
with unregister calls — are strictly increasing, hence unique and never
reused; the 32-bit counter makes the bound necessary. -/
theorem c8_session_ids_strictly_increasing :
    ∀ (ops : List sess_op),
      (apply_sess_ops ops sessions_init).2.length < UINT_MOD →
      List.Pairwise (· < ·) (apply_sess_ops ops sessions_init).2 := by
  intro ops hlen
  have hids := apply_sess_ops_ids ops sessions_init
  rw [hids]
  have hmap : (List.range' (sessions_init.io_session_io + 1)
      (apply_sess_ops ops sessions_init).2.length).map (· % UINT_MOD) =
      List.range' (sessions_init.io_session_io + 1)
        (apply_sess_ops ops sessions_init).2.length := by
    have hcong := List.map_congr_left (l := List.range' (sessions_init.io_session_io + 1)
        (apply_sess_ops ops sessions_init).2.length)
      (f := fun x => x % UINT_MOD) (g := fun x => x)
      (by
        intro a ha
        rw [List.mem_range'] at ha
        obtain ⟨i, hi, rfl⟩ := ha
        simp only [sessions_init]
        apply Nat.mod_eq_of_lt
        omega)
    rw [hcong, List.map_id']
  rw [hmap]
  exact List.pairwise_lt_range' _ _

/-- C8 witness: a concrete run interleaving registrations and an
unregistration; the freed identifier is not reissued and the ids are
strictly increasing. -/
theorem c8_session_ids_strictly_increasing_witness :
    (apply_sess_ops
      [sess_op.sreg 5 .TRANSFORM_SESSION_NODE 0, sess_op.sunreg 5,
       sess_op.sreg 5 .TRANSFORM_SESSION_NODE 0] sessions_init).2.length < UINT_MOD ∧
    List.Pairwise (· < ·)
      (apply_sess_ops
        [sess_op.sreg 5 .TRANSFORM_SESSION_NODE 0, sess_op.sunreg 5,
         sess_op.sreg 5 .TRANSFORM_SESSION_NODE 0] sessions_init).2 :=
  ⟨by decide,
   c8_session_ids_strictly_increasing
     [sess_op.sreg 5 .TRANSFORM_SESSION_NODE 0, sess_op.sunreg 5,
      sess_op.sreg 5 .TRANSFORM_SESSION_NODE 0] (by decide)⟩
